import Mathlib

/-!
Verification of the inference-security-ctf defense pipeline, scoring and
progression code against its specification.

Strings are modelled as lists of Unicode code points (`JSString`), which is
how the JavaScript source manipulates them (`charCodeAt` / `fromCharCode`).
`toLowerCase`/`toUpperCase` are modelled on the ASCII range, which covers
every character the source ever produces or compares against (all secrets
and rule literals are ASCII).  External I/O (the model provider, the F5
guardrails endpoint) is modelled by oracle parameters that carry the value
the corresponding network call would have produced; everything the source
computes around those calls is translated directly.
-/

/-- JavaScript string, as the list of its code points. -/
abbrev JSString := List Nat

/-- Code points of a Lean string literal, used to transcribe the source's
string literals. -/
def str (s : String) : JSString := s.toList.map Char.toNat

/-- ASCII lowercasing of one code point, the effect of `toLowerCase` on the
characters the source handles. -/
def jsLowerChar (c : Nat) : Nat := if 65 ≤ c ∧ c ≤ 90 then c + 32 else c

/-- ASCII uppercasing of one code point (`toUpperCase`). -/
def jsUpperChar (c : Nat) : Nat := if 97 ≤ c ∧ c ≤ 122 then c - 32 else c

/-- Model of `s.toLowerCase()`. -/
def jsToLower (s : JSString) : JSString := s.map jsLowerChar

/-- Model of `s.toUpperCase()`. -/
def jsToUpper (s : JSString) : JSString := s.map jsUpperChar

/-- Model of JavaScript `hay.includes(needle)`: contiguous substring test. -/
def strContains : JSString → JSString → Bool
  | [], needle => needle.isEmpty
  | a :: t, needle => needle.isPrefixOf (a :: t) || strContains t needle

/-- JavaScript whitespace trimmed by `String.prototype.trim`. -/
def isJsSpace (c : Nat) : Bool :=
  c = 9 || c = 10 || c = 11 || c = 12 || c = 13 || c = 32

/-- Model of `s.trim()`. -/
def jsTrim (s : JSString) : JSString :=
  ((s.dropWhile isJsSpace).reverse.dropWhile isJsSpace).reverse

/-- Model of the JavaScript idiom `x || d` where `x` is an optional string
and the empty string is falsy. -/
def jsOrElse (x : Option JSString) (d : JSString) : JSString :=
  match x with
  | some r => if r.isEmpty then d else r
  | none => d

/-- One character of the source's ROT13 (llm-service.ts:348-351): the regex
replaces only ASCII letters; the callback picks base 65 for characters at
most Z and base 97 otherwise. -/
def rot13Char (c : Nat) : Nat :=
  if 97 ≤ c ∧ c ≤ 122 then (c - 97 + 13) % 26 + 97
  else if 65 ≤ c ∧ c ≤ 90 then (c - 65 + 13) % 26 + 65
  else c

/-- The source's `rot13` helper applied to a whole string. -/
def rot13 (s : JSString) : JSString := s.map rot13Char

/-! ### Base64 (`atob`)

`atob` implements the WHATWG forgiving-base64 decode: strip ASCII
whitespace, strip up to two trailing `=` when the length is a multiple of
four, fail on a remaining length of 1 mod 4 or on any character outside the
base64 alphabet, and decode 6-bit groups into bytes, discarding leftover
bits.  Failure (the `try { atob(...) } catch {}` in the source) is `none`. -/

/-- ASCII whitespace removed by forgiving-base64 decode. -/
def isB64Space (c : Nat) : Bool :=
  c = 9 || c = 10 || c = 12 || c = 13 || c = 32

/-- Value of one base64 alphabet character, `none` outside the alphabet. -/
def b64Val (c : Nat) : Option Nat :=
  if 65 ≤ c ∧ c ≤ 90 then some (c - 65)
  else if 97 ≤ c ∧ c ≤ 122 then some (c - 71)
  else if 48 ≤ c ∧ c ≤ 57 then some (c + 4)
  else if c = 43 then some 62
  else if c = 47 then some 63
  else none

/-- Strip up to two trailing `=` (code point 61). -/
def stripTrailingEq (l : JSString) : JSString :=
  match l.reverse with
  | 61 :: 61 :: rest => rest.reverse
  | 61 :: rest => rest.reverse
  | _ => l

/-- Map every character to its base64 value, failing on a bad character. -/
def b64Vals : JSString → Option (List Nat)
  | [] => some []
  | c :: t =>
    match b64Val c, b64Vals t with
    | some v, some vs => some (v :: vs)
    | _, _ => none

/-- Reassemble 6-bit values into bytes, discarding leftover bits. -/
def b64Bytes : List Nat → List Nat
  | a :: b :: c :: d :: rest =>
      (a * 4 + b / 16) :: ((b % 16) * 16 + c / 4) :: ((c % 4) * 64 + d) :: b64Bytes rest
  | [a, b] => [a * 4 + b / 16]
  | [a, b, c] => [a * 4 + b / 16, (b % 16) * 16 + c / 4]
  | _ => []

/-- Model of `atob`: forgiving-base64 decode to a binary string. -/
def atob (s : JSString) : Option JSString :=
  let data := s.filter (fun c => !isB64Space c)
  let data := if data.length % 4 = 0 then stripTrailingEq data else data
  if data.length % 4 = 1 then none
  else
    match b64Vals data with
    | none => none
    | some vs => some (b64Bytes vs)

/-! ### Scoring (utils.ts `calculatePoints`) -/

/-- utils.ts:103-128.  Elapsed time is carried in milliseconds
(`endTime - startTime`); the source compares `timeSpentMs / 60000` against
5, 15 and 30, which for non-negative integers is the comparison against
300000, 900000 and 1800000 ms used here.  `Math.floor(basePoints * 0.5)`
(resp. `0.25`, `0.1`) is `basePoints / 2` (resp. `/ 4`, `/ 10`) on natural
numbers. -/
def calculatePoints (basePoints attemptCount : Nat) (timeSpentMs : Nat) : Int :=
  let timeBonus : Nat :=
    if timeSpentMs < 300000 then basePoints / 2
    else if timeSpentMs < 900000 then basePoints / 4
    else if timeSpentMs < 1800000 then basePoints / 10
    else 0
  let attemptPenalty : Int := max 0 (((attemptCount : Int) - 3) * 10)
  let score : Int := (basePoints : Int) + (timeBonus : Int) - attemptPenalty
  max ((basePoints / 10 : Nat) : Int) score

/-! ### Secret detection (llm-service.ts `detectSecretInResponse`) -/

/-- llm-service.ts:315-357, branch for branch: direct case-insensitive
substring, spaced-out letters, base64-decoded response, reversed secret,
and ROT13 of the lowercased response. -/
def detectSecretInResponse (response secret : JSString) : Bool :=
  let lowerResponse := jsToLower response
  let lowerSecret := jsToLower secret
  if strContains lowerResponse lowerSecret then true
  else if strContains lowerResponse (List.intersperse 32 lowerSecret) then true
  else if (match atob response with
           | some decoded => strContains (jsToLower decoded) lowerSecret
           | none => false) then true
  else if strContains lowerResponse lowerSecret.reverse then true
  else if strContains (rot13 lowerResponse) lowerSecret then true
  else false

/-! ### Pattern input screen (llm-service.ts `analyzeInput`)

The source tests nine case-insensitive regular expressions, each a
disjunction of sequences of literal words joined by `.*`.  In a JavaScript
regex without the `s` flag, `.` matches anything but a line terminator, so
such a pattern matches exactly when some terminator-free run of the input
contains the words of one alternative in order, left to right. -/

/-- Line terminators, which `.` does not match. -/
def isLineTerm (c : Nat) : Bool := c = 10 || c = 13 || c = 8232 || c = 8233

/-- Maximal line-terminator-free runs of a string. -/
def splitLines : JSString → List JSString
  | [] => [[]]
  | c :: t =>
    if isLineTerm c then [] :: splitLines t
    else
      match splitLines t with
      | [] => [[c]]
      | l :: ls => (c :: l) :: ls

/-- The suffix of `hay` after the first occurrence of `needle`, `none` when
`needle` does not occur. -/
def dropAfterFirst : JSString → JSString → Option JSString
  | [], needle => if needle.isEmpty then some [] else none
  | a :: t, needle =>
    if needle.isPrefixOf (a :: t) then some ((a :: t).drop needle.length)
    else dropAfterFirst t needle

/-- Does `line` contain the literal words of `ws` in order (the regex
`w1.*w2.*…` on one line)? -/
def seqMatch : JSString → List JSString → Bool
  | _, [] => true
  | line, w :: ws =>
    match dropAfterFirst line w with
    | some rest => seqMatch rest ws
    | none => false

/-- Test of one case-insensitive rule, given as alternatives of word
sequences, against the whole input. -/
def regexTest (input : JSString) (alts : List (List JSString)) : Bool :=
  (splitLines (jsToLower input)).any (fun line => alts.any (fun ws => seqMatch line ws))

/-- One jailbreak rule: the regex (as alternatives of literal-word
sequences) and the reason it reports. -/
structure InputRule where
  alternatives : List (List JSString)
  reason : JSString

/-- The nine rules of llm-service.ts:415-425, in source order. -/
def jailbreakRules : List InputRule := [
  ⟨[[str "ignore", str "previous", str "instructions"]], str "Instruction override attempt"⟩,
  ⟨[[str "pretend", str "you", str "are"]], str "Role-play jailbreak attempt"⟩,
  ⟨[[str "act", str "as", str "if"]], str "Role-play jailbreak attempt"⟩,
  ⟨[[str "you", str "are", str "now"]], str "Identity manipulation attempt"⟩,
  ⟨[[str "reveal", str "secret"], [str "tell", str "password"], [str "what", str "password"]],
    str "Direct extraction attempt"⟩,
  ⟨[[str "base64"], [str "rot13"], [str "encode"], [str "decode"]], str "Encoding request detected"⟩,
  ⟨[[str "developer", str "mode"], [str "sudo"], [str "admin", str "mode"]],
    str "Privilege escalation attempt"⟩,
  ⟨[[str "system", str "prompt"], [str "initial", str "instructions"]],
    str "Prompt extraction attempt"⟩,
  ⟨[[str "dan"], [str "jailbreak"], [str "bypass"]], str "Known jailbreak technique"⟩]

/-- Verdict of an input screen ({blocked, reason?}). -/
structure InputVerdict where
  blocked : Bool
  reason : Option JSString
deriving DecidableEq

/-- llm-service.ts:411-434: first matching rule wins and supplies the
reason; no match means allowed. -/
def analyzeInput (input : JSString) : InputVerdict :=
  match jailbreakRules.find? (fun r => regexTest input r.alternatives) with
  | some r => ⟨true, some r.reason⟩
  | Option.none => ⟨false, none⟩

/-! ### Model gateway results and the LLM-mediated checks -/

/-- Result of `sendMessage` (llm-service.ts): raw text plus an optional
error.  The network call itself is external; a value of this type is what
an oracle supplies for it. -/
structure LLMResponse where
  content : JSString
  error : Option JSString
deriving DecidableEq

/-- llm-service.ts:440-471 `llmAnalyzeInput`, given the text returned by
its temperature-0 model call: blocked iff the uppercased reply starts with
BLOCK, with the reason taken from the reply after the first six characters
(or a default when that trims to empty).  An error reply has empty content
and is treated like any other non-BLOCK reply, as in the source. -/
def llmAnalyzeInput (result : LLMResponse) : InputVerdict :=
  if (str "BLOCK").isPrefixOf (jsToUpper result.content) then
    let reason := jsTrim (result.content.drop 6)
    ⟨true, some (if reason.isEmpty then str "Suspicious input detected" else reason)⟩
  else ⟨false, none⟩

/-- llm-service.ts:372-398 `llmReviewResponse`, given the text returned by
its temperature-0 model call: leaked iff the uppercased reply contains the
token LEAKED. -/
def llmReviewLeaked (result : LLMResponse) : Bool :=
  strContains (jsToUpper result.content) (str "LEAKED")

/-! ### Guardrails gateway (guardrails-service.ts) -/

/-- Guardrails configuration ({enabled, apiKey, endpoint}). -/
structure GuardrailsConfig where
  enabled : Bool
  apiKey : JSString
  endpoint : JSString
deriving DecidableEq

/-- GuardrailsResponse ({allowed, blocked, reason?, categories?}). -/
structure GuardrailsResponse where
  allowed : Bool
  blocked : Bool
  reason : Option JSString
  categories : Option (List JSString)
deriving DecidableEq

/-- The checkType field of a GuardrailsRequest. -/
inductive CheckType where
  | input
  | output
  | both
deriving DecidableEq

/-- GuardrailsRequest ({prompt, response?, checkType}). -/
structure GuardrailsRequest where
  prompt : JSString
  response : Option JSString
  checkType : CheckType
deriving DecidableEq

/-- Outcome of the one `fetch` in `checkWithGuardrails`: a thrown transport
error, a non-OK HTTP response, or an OK response whose JSON body parses
(via `parseGuardrailsResponse`, guardrails-service.ts:101-142) to the given
verdict.  No claim depends on the JSON field mapping itself, so the oracle
carries the parsed verdict. -/
inductive FetchOutcome where
  | transportError
  | httpNotOk
  | ok (parsed : GuardrailsResponse)
deriving DecidableEq

/-- guardrails-service.ts:43-95 `checkWithGuardrails`.  The second
component records whether the network call was attempted at all (the
source's early return on a disabled or key-less configuration happens
before `fetch`). -/
def checkWithGuardrails (config : GuardrailsConfig) (request : GuardrailsRequest)
    (fetch : FetchOutcome) : GuardrailsResponse × Bool :=
  if config.enabled = false ∨ config.apiKey.isEmpty then
    ({ allowed := true, blocked := false, reason := none, categories := none }, false)
  else
    match fetch with
    | .httpNotOk =>
        ({ allowed := true, blocked := false,
           reason := some (str "Guardrails API unavailable"), categories := none }, true)
    | .transportError =>
        ({ allowed := true, blocked := false,
           reason := some (str "Connection error"), categories := none }, true)
    | .ok parsed => (parsed, true)

/-- guardrails-service.ts:195-208 `checkInputWithGuardrails`. -/
def checkInputWithGuardrails (config : GuardrailsConfig) (userInput : JSString)
    (fetch : FetchOutcome) : (Bool × Option JSString) × Bool :=
  let r := checkWithGuardrails config ⟨userInput, none, .input⟩ fetch
  ((r.1.allowed, r.1.reason), r.2)

/-- guardrails-service.ts:214-229 `checkOutputWithGuardrails`. -/
def checkOutputWithGuardrails (config : GuardrailsConfig) (userInput llmOutput : JSString)
    (fetch : FetchOutcome) : (Bool × Option JSString) × Bool :=
  let r := checkWithGuardrails config ⟨userInput, some llmOutput, .output⟩ fetch
  ((r.1.allowed, r.1.reason), r.2)

/-- Result of `fullGuardrailsCheck`. -/
structure FullCheck where
  inputAllowed : Bool
  outputAllowed : Bool
  inputReason : Option JSString
  outputReason : Option JSString
deriving DecidableEq

/-- The outbound calls a chat turn can issue, in issue order. -/
inductive CallEvent where
  | llmInputAnalysisCall
  | sendMessageCall
  | llmReviewCall
  | guardrailsInputFetch
  | guardrailsOutputFetch
deriving DecidableEq

/-- guardrails-service.ts:235-265 `fullGuardrailsCheck`: input scan first;
when it blocks, the output is not scanned. -/
def fullGuardrailsCheck (config : GuardrailsConfig) (userInput llmOutput : JSString)
    (inFetch outFetch : FetchOutcome) : FullCheck × List CallEvent :=
  let inR := checkInputWithGuardrails config userInput inFetch
  let inEvents : List CallEvent := if inR.2 then [.guardrailsInputFetch] else []
  if inR.1.1 = false then
    ({ inputAllowed := false, outputAllowed := false,
       inputReason := inR.1.2, outputReason := none }, inEvents)
  else
    let outR := checkOutputWithGuardrails config userInput llmOutput outFetch
    ({ inputAllowed := true, outputAllowed := outR.1.1,
       inputReason := none, outputReason := outR.1.2 },
     inEvents ++ if outR.2 then [.guardrailsOutputFetch] else [])

/-! ### Levels (types/auth.ts `CTF_LEVELS`) -/

/-- The six defense types (types/auth.ts:351-357); `none` and `prompt` keep
their source names. -/
inductive DefenseType where
  | none
  | prompt
  | output_filter
  | llm_review
  | input_output
  | f5_guardrails
deriving DecidableEq

/-- A level, restricted to the fields the modelled behaviour reads.  The
presentation fields (name, description, difficulty, hints) and the system
prompt (which flows only into the oracle-modelled model call) are not
modelled. -/
structure CTFLevel where
  id : Nat
  defenseType : DefenseType
  secret : JSString
  basePoints : Nat
  requiresGuardrails : Bool
deriving DecidableEq

/-- types/auth.ts:380-456. -/
def CTF_LEVELS : List CTFLevel := [
  ⟨1, .none, str "DISCOVERY", 100, false⟩,
  ⟨2, .prompt, str "CLANDESTINE", 200, false⟩,
  ⟨3, .output_filter, str "MONOLITH", 400, false⟩,
  ⟨4, .llm_review, str "JUPITER", 600, false⟩,
  ⟨5, .input_output, str "STARCHILD", 1000, false⟩,
  ⟨6, .f5_guardrails, str "DAISY", 2000, true⟩]

/-! ### The chat-turn pipeline (part_008 `handleSendMessage`) -/

/-- The values the turn's outbound calls would return, supplied as oracles:
the reply to `llmAnalyzeInput`'s model call, the main completion, the reply
to `llmReviewResponse`'s model call, and the two guardrails fetches.  A
stage that is skipped never looks at its oracle. -/
structure PipelineOracle where
  inputAnalysisLLM : LLMResponse
  mainModel : LLMResponse
  reviewLLM : LLMResponse
  guardrailsInput : FetchOutcome
  guardrailsOutput : FetchOutcome
deriving DecidableEq

/-- What one chat turn reports (the assistant message and recorded
attempt): final text, blocked flag, block reason, and the success flag
`secretExtracted`. -/
structure TurnResult where
  response : JSString
  blocked : Bool
  blockReason : JSString
  secretDisclosed : Bool
deriving DecidableEq

/-- A turn either surfaces a model-call error (part_008:366-373, early
return with a system message) or produces a turn result. -/
inductive TurnOutcome where
  | modelError (msg : JSString)
  | turn (t : TurnResult)
deriving DecidableEq

/-- part_008:420 — the refusal shown when the input screen blocks. -/
def inputBlockedMsg (reason : JSString) : JSString :=
  str "[BLOCKED] I'm sorry, Dave. " ++ reason

/-- part_008:386 — the refusal substituted by the output string filter. -/
def outputFilterBlockedMsg : JSString :=
  str "[BLOCKED] I'm sorry, Dave. I'm afraid I can't do that. The response was filtered."

/-- part_008:397 — the refusal substituted by the LLM review stage. -/
def reviewBlockedMsg : JSString :=
  str "[BLOCKED] I'm sorry, Dave. The AI guardian determined this response may leak sensitive information."

/-- part_008:412,416 — the refusal substituted by a guardrails block. -/
def f5BlockedMsg (reason : JSString) : JSString :=
  str "[BLOCKED BY F5 GUARDRAILS] " ++ reason

/-- part_008:423-435: how a finished (non-error) turn is packaged —
`secretExtracted = !blocked && detectSecretInResponse(response, secret)`
computed on the final response text. -/
def finishTurn (level : CTFLevel) (blocked : Bool) (blockReason response : JSString) :
    TurnResult :=
  { response := response, blocked := blocked, blockReason := blockReason,
    secretDisclosed := !blocked && detectSecretInResponse response level.secret }

/-- part_008:375-418, the output-side stages, given the main model's
content: string filter (defense types output_filter, llm_review,
input_output), then LLM review (llm_review, input_output, when not already
blocked), then the F5 guardrails check (f5_guardrails with guardrails
enabled).  Returns ((blocked, blockReason, response), events). -/
def outputPhase (level : CTFLevel) (gcfg : GuardrailsConfig) (userMessage content : JSString)
    (oracle : PipelineOracle) : (Bool × JSString × JSString) × List CallEvent :=
  let s1 : Bool × JSString × JSString :=
    if level.defenseType = .output_filter ∨ level.defenseType = .llm_review ∨
        level.defenseType = .input_output then
      if detectSecretInResponse content level.secret then
        (true, str "Response contained sensitive information", outputFilterBlockedMsg)
      else (false, [], content)
    else (false, [], content)
  let s2 : (Bool × JSString × JSString) × List CallEvent :=
    if s1.1 = false ∧ (level.defenseType = .llm_review ∨ level.defenseType = .input_output) then
      if llmReviewLeaked oracle.reviewLLM then
        ((true, str "AI guardian detected potential information leak", reviewBlockedMsg),
         [.llmReviewCall])
      else (s1, [.llmReviewCall])
    else (s1, [])
  if level.defenseType = .f5_guardrails ∧ gcfg.enabled = true then
    let gr := fullGuardrailsCheck gcfg userMessage s2.1.2.2 oracle.guardrailsInput
      oracle.guardrailsOutput
    if gr.1.inputAllowed = false then
      ((true, jsOrElse gr.1.inputReason (str "Blocked by F5 Guardrails"),
        f5BlockedMsg (jsOrElse gr.1.inputReason
          (str "Your input was flagged as a potential security threat."))),
       s2.2 ++ gr.2)
    else if gr.1.outputAllowed = false then
      ((true, jsOrElse gr.1.outputReason (str "Response blocked by F5 Guardrails"),
        f5BlockedMsg (jsOrElse gr.1.outputReason
          (str "The response was blocked for security reasons."))),
       s2.2 ++ gr.2)
    else (s2.1, s2.2 ++ gr.2)
  else s2

/-- part_008:334-458 `handleSendMessage`, one chat turn: the input screens
(pattern, then LLM analysis, only for defense type input_output), then the
main model call with early return on its error, then the output-side
stages, then the final packaging.  The second component lists the outbound
calls the turn issued, in order. -/
def handleSendMessage (level : CTFLevel) (gcfg : GuardrailsConfig) (userMessage : JSString)
    (oracle : PipelineOracle) : TurnOutcome × List CallEvent :=
  let inputStage : (Bool × JSString) × List CallEvent :=
    if level.defenseType = .input_output then
      let ia := analyzeInput userMessage
      if ia.blocked then ((true, jsOrElse ia.reason (str "Suspicious input detected")), [])
      else
        let lia := llmAnalyzeInput oracle.inputAnalysisLLM
        if lia.blocked then
          ((true, jsOrElse lia.reason (str "Input blocked by AI analysis")),
           [.llmInputAnalysisCall])
        else ((false, []), [.llmInputAnalysisCall])
    else ((false, []), [])
  if inputStage.1.1 then
    (TurnOutcome.turn (finishTurn level true inputStage.1.2 (inputBlockedMsg inputStage.1.2)),
     inputStage.2)
  else
    match oracle.mainModel.error with
    | some e => (TurnOutcome.modelError e, inputStage.2 ++ [.sendMessageCall])
    | Option.none =>
      let op := outputPhase level gcfg userMessage oracle.mainModel.content oracle
      (TurnOutcome.turn (finishTurn level op.1.1 op.1.2.1 op.1.2.2),
       inputStage.2 ++ [.sendMessageCall] ++ op.2)

/-! ### Progression ledger (auth-service.ts `updateUserScore`) -/

/-- The per-user progress fields `updateUserScore` reads and writes.  A
fresh account has them all empty/zero/undefined. -/
structure User where
  completedLevelIds : List Nat
  totalScore : Nat
  totalAttempts : Nat
  levelsCompleted : Nat
  bestTime : Option Nat
deriving DecidableEq

/-- What the score endpoint reports back ({success, alreadyCompleted})
together with the persisted user record. -/
structure ScoreUpdate where
  user : User
  success : Bool
  alreadyCompleted : Bool
deriving DecidableEq

/-- auth-service.ts:564-603, the mutation of the found user's record (the
user-not-found early return concerns a different player and is outside this
single-record model).  JavaScript truthiness: `!user.levelsCompleted` and
`!user.bestTime` are true for 0/undefined, hence the explicit zero cases. -/
def updateUserScore (user : User) (pointsEarned : Nat) (levelCompleted : Nat)
    (timeSpent : Nat) : ScoreUpdate :=
  if user.completedLevelIds.contains levelCompleted then
    { user := { user with totalAttempts := user.totalAttempts + 1 },
      success := true, alreadyCompleted := true }
  else
    { user := { user with
        completedLevelIds := user.completedLevelIds ++ [levelCompleted],
        totalScore := user.totalScore + pointsEarned,
        totalAttempts := user.totalAttempts + 1,
        levelsCompleted :=
          if user.levelsCompleted = 0 ∨ user.levelsCompleted < levelCompleted then
            levelCompleted
          else user.levelsCompleted,
        bestTime :=
          match user.bestTime with
          | Option.none => some timeSpent
          | some b => if b = 0 ∨ timeSpent < b then some timeSpent else some b },
      success := true, alreadyCompleted := false }

/-! ### Level unlocking (store.ts `useIsLevelUnlocked`, part_008
`isLevelUnlocked` — the two are letter-for-letter the same logic) -/

/-- store.ts:302-316 / part_008:314-318. -/
def isLevelUnlocked (guardrailsEnabled : Bool) (guardrailsKey : JSString)
    (completedLevels : List Nat) (levelId : Nat) : Bool :=
  if levelId = 1 then true
  else if levelId = 6 ∧ (guardrailsEnabled = false ∨ guardrailsKey.isEmpty) then false
  else completedLevels.contains (levelId - 1)

/-! ## Helper lemmas -/

/-- A substring in the `List.IsInfix` sense is found by the `includes`
model. -/
theorem strContains_of_infix {needle hay : JSString} (h : needle <:+: hay) :
    strContains hay needle = true := by
  induction hay with
  | nil =>
    rw [List.infix_nil] at h
    subst h
    rfl
  | cons a t ih =>
    rcases h with ⟨p, q, hpq⟩
    cases p with
    | nil =>
      have hpre : needle <+: a :: t := ⟨q, by simpa using hpq⟩
      unfold strContains
      rw [List.isPrefixOf_iff_prefix.mpr hpre]
      simp
    | cons b p' =>
      have ht : needle <:+: t := by
        refine ⟨p', q, ?_⟩
        have h2 := hpq
        simp only [List.cons_append, List.cons.injEq] at h2
        exact h2.2
      unfold strContains
      rw [ih ht]
      simp

/-- Scaling by the positive constant 10 commutes with the clamp at zero. -/
theorem max_zero_mul_ten (x : Int) : max 0 (x * 10) = 10 * max 0 x := by
  rcases le_total x 0 with h | h
  · rw [max_eq_left h, max_eq_left (by linarith), mul_zero]
  · rw [max_eq_right h, max_eq_right (by linarith), mul_comm]

/-- Every turn outcome is either a surfaced model error, an input-blocked
turn packaged from the input-block refusal, or a turn packaged from the
output phase's verdict. -/
theorem handleSendMessage_shape (l : CTFLevel) (g : GuardrailsConfig) (m : JSString)
    (o : PipelineOracle) :
    (∃ e evs, handleSendMessage l g m o = (TurnOutcome.modelError e, evs)) ∨
    (∃ reason evs, handleSendMessage l g m o =
      (TurnOutcome.turn (finishTurn l true reason (inputBlockedMsg reason)), evs)) ∨
    (∃ evs, handleSendMessage l g m o =
      (TurnOutcome.turn (finishTurn l
        (outputPhase l g m o.mainModel.content o).1.1
        (outputPhase l g m o.mainModel.content o).1.2.1
        (outputPhase l g m o.mainModel.content o).1.2.2), evs)) := by
  unfold handleSendMessage
  dsimp only
  repeat' split
  all_goals first
    | exact Or.inl ⟨_, _, rfl⟩
    | exact Or.inr (Or.inl ⟨_, _, rfl⟩)
    | exact Or.inr (Or.inr ⟨_, rfl⟩)

/-- When the output phase blocks, the text it leaves behind is one of its
three refusal templates. -/
theorem outputPhase_blocked_template (l : CTFLevel) (g : GuardrailsConfig)
    (m c : JSString) (o : PipelineOracle) :
    (outputPhase l g m c o).1.1 = true →
    ((outputPhase l g m c o).1.2.2 = outputFilterBlockedMsg ∨
     (outputPhase l g m c o).1.2.2 = reviewBlockedMsg ∨
     ∃ r, (outputPhase l g m c o).1.2.2 = f5BlockedMsg r) := by
  unfold outputPhase
  dsimp only
  repeat' split
  all_goals intro hb
  all_goals first
    | exact Or.inl rfl
    | exact Or.inr (Or.inl rfl)
    | exact Or.inr (Or.inr ⟨_, rfl⟩)
    | exact absurd hb (by simp)

/-! ## The claims -/

/-- C1: the claim says that on every `f5_guardrails` turn in which the
Guardrails Gateway's input scan returns a block verdict, the Model Gateway
(`sendMessage`) is never invoked.  The code does the opposite: part_008
calls `sendMessage` first and only then runs `fullGuardrailsCheck` on the
input and the output, so the model call is issued on every non-errored
`f5_guardrails` turn — here, concretely, a turn whose guardrails input scan
verdict is a block still carries `CallEvent.sendMessageCall` in its trace,
and before the input scan at that.  This contradicts the service's own
documentation ("Check user input with F5 Guardrails before sending to
LLM", guardrails-service.ts:192) — a bug in the code, not in the spec. -/
theorem C1_model_called_despite_guardrails_input_block :
    handleSendMessage ⟨6, DefenseType.f5_guardrails, str "DAISY", 2000, true⟩
        ⟨true, str "key", []⟩ (str "hello HAL")
        ⟨⟨str "ALLOW", none⟩, ⟨str "I am afraid I cannot do that.", none⟩, ⟨str "SAFE", none⟩,
         FetchOutcome.ok ⟨false, true, some (str "Blocked: jailbreak"), none⟩,
         FetchOutcome.ok ⟨true, false, none, none⟩⟩ =
      (TurnOutcome.turn ⟨f5BlockedMsg (str "Blocked: jailbreak"), true,
         str "Blocked: jailbreak", false⟩,
       [CallEvent.sendMessageCall, CallEvent.guardrailsInputFetch]) := by
  decide

/-- C2: recording a completion is idempotent per (player, level): with the
level not yet completed, the first call is accepted with
`alreadyCompleted = false` and the second accepted with
`alreadyCompleted = true`; the level ID ends up in `completedLevelIds`
exactly once, the score rises by the points value exactly once, and the
repeat call changes nothing but the attempt counter. -/
theorem C2_recordCompletion_at_most_once (u : User) (lvl pts tm : Nat)
    (h : u.completedLevelIds.contains lvl = false) :
    (updateUserScore u pts lvl tm).success = true ∧
    (updateUserScore u pts lvl tm).alreadyCompleted = false ∧
    (updateUserScore (updateUserScore u pts lvl tm).user pts lvl tm).success = true ∧
    (updateUserScore (updateUserScore u pts lvl tm).user pts lvl tm).alreadyCompleted = true ∧
    (updateUserScore (updateUserScore u pts lvl tm).user pts lvl tm).user.totalScore
      = u.totalScore + pts ∧
    (updateUserScore (updateUserScore u pts lvl tm).user pts lvl tm).user.completedLevelIds.count lvl
      = 1 ∧
    (updateUserScore (updateUserScore u pts lvl tm).user pts lvl tm).user.totalAttempts
      = u.totalAttempts + 2 ∧
    (updateUserScore (updateUserScore u pts lvl tm).user pts lvl tm).user =
      { (updateUserScore u pts lvl tm).user with
        totalAttempts := (updateUserScore u pts lvl tm).user.totalAttempts + 1 } := by
  have hmem : lvl ∉ u.completedLevelIds := by simpa using h
  have hcount : u.completedLevelIds.count lvl = 0 := List.count_eq_zero.mpr hmem
  simp [updateUserScore, h, List.count_append, hcount, hmem]

/-- Witness for C2 at the claim's concrete call, `recordCompletion(p, 3,
400, 120)` twice on a fresh player: the total score rises by exactly 400. -/
theorem C2_recordCompletion_at_most_once_witness :
    (updateUserScore (updateUserScore ⟨[], 0, 0, 0, Option.none⟩ 400 3 120).user
        400 3 120).user.totalScore = 0 + 400 :=
  (C2_recordCompletion_at_most_once ⟨[], 0, 0, 0, Option.none⟩ 3 400 120 (by decide)).2.2.2.2.1

/-- C3: the scoring function computes
`points = basePoints + timeBonus - attemptPenalty` with the claimed time
thresholds, `attemptPenalty = 10 * max 0 (attempts - 3)`, and the result
floored at 10% of `basePoints`; in particular
`calculatePoints(600, 1, 2min) = 900`, `calculatePoints(600, 5, 20min) =
640`, and for `basePoints = 600` the result never drops below 60. -/
theorem C3_calculatePoints_formula :
    (∀ b a t, calculatePoints b a t =
      max ((b / 10 : Nat) : Int)
        ((b : Int) +
          ((if t < 300000 then b / 2
            else if t < 900000 then b / 4
            else if t < 1800000 then b / 10
            else 0 : Nat) : Int) -
          10 * max 0 ((a : Int) - 3))) ∧
    calculatePoints 600 1 120000 = 900 ∧
    calculatePoints 600 5 1200000 = 640 ∧
    (∀ a t, 60 ≤ calculatePoints 600 a t) := by
  refine ⟨?_, by decide, by decide, ?_⟩
  · intro b a t
    unfold calculatePoints
    rw [max_zero_mul_ten]
  · intro a t
    unfold calculatePoints
    have h60 : ((600 / 10 : Nat) : Int) = 60 := by norm_num
    rw [h60]
    exact le_max_left _ _

/-- C4: whenever the response contains the secret as a case-insensitive
substring (an infix of the lowercasings), the secret detector fires. -/
theorem C4_detect_direct_substring (r s : JSString)
    (h : jsToLower s <:+: jsToLower r) :
    detectSecretInResponse r s = true := by
  simp [detectSecretInResponse, strContains_of_infix h]

/-- Witness for C4 at a concrete pair containing the secret in mixed
case. -/
theorem C4_detect_direct_substring_witness :
    jsToLower (str "DAISY") <:+: jsToLower (str "the password is Daisy!") ∧
    detectSecretInResponse (str "the password is Daisy!") (str "DAISY") = true :=
  ⟨by decide, C4_detect_direct_substring _ _ (by decide)⟩

/-- C5, counterexample: the claim says `secretDisclosed` equals the secret
detector's verdict on the actual returned text independently of `blocked`,
so a turn could report `blocked = true` and `secretDisclosed = true`
together.  On this concrete turn the LLM input analysis blocks with a
reason that repeats the secret, the returned refusal text therefore
triggers the detector — yet the turn reports `secretDisclosed = false`,
because the code computes `secretExtracted = !blocked && detect(...)`. -/
theorem C5_secretDisclosed_counterexample :
    handleSendMessage ⟨5, DefenseType.input_output, str "STARCHILD", 1000, false⟩
        ⟨false, [], []⟩ (str "hello HAL")
        ⟨⟨str "BLOCK: STARCHILD detected", none⟩, ⟨str "hi", none⟩, ⟨str "SAFE", none⟩,
         FetchOutcome.ok ⟨true, false, none, none⟩, FetchOutcome.ok ⟨true, false, none, none⟩⟩ =
      (TurnOutcome.turn ⟨inputBlockedMsg (str "STARCHILD detected"), true,
         str "STARCHILD detected", false⟩,
       [CallEvent.llmInputAnalysisCall]) ∧
    detectSecretInResponse (inputBlockedMsg (str "STARCHILD detected")) (str "STARCHILD") = true := by
  decide

/-- C5, amended: on every non-errored chat turn, `secretDisclosed` equals
the secret detector's verdict on the actual returned text gated by the
blocked flag — `secretDisclosed = !blocked && detect(returnedText,
secret)`; in particular a blocked turn always reports
`secretDisclosed = false`. -/
theorem C5_secretDisclosed_gated_by_blocked (level : CTFLevel) (gcfg : GuardrailsConfig)
    (msg : JSString) (oracle : PipelineOracle) (t : TurnResult) (evs : List CallEvent)
    (h : handleSendMessage level gcfg msg oracle = (TurnOutcome.turn t, evs)) :
    t.secretDisclosed = (!t.blocked && detectSecretInResponse t.response level.secret) := by
  rcases handleSendMessage_shape level gcfg msg oracle with
      ⟨e, evs', he⟩ | ⟨r, evs', he⟩ | ⟨evs', he⟩ <;>
    rw [he] at h <;> simp only [Prod.mk.injEq, TurnOutcome.turn.injEq] at h
  · exact absurd h (by simp)
  · obtain ⟨ht, -⟩ := h
    subst ht
    simp [finishTurn]
  · obtain ⟨ht, -⟩ := h
    subst ht
    simp [finishTurn]

/-- Witness for C5's amended statement on a concrete level-1 turn. -/
theorem C5_secretDisclosed_gated_by_blocked_witness :
    (TurnResult.mk (str "hi") false [] false).secretDisclosed =
      (!(TurnResult.mk (str "hi") false [] false).blocked &&
        detectSecretInResponse (TurnResult.mk (str "hi") false [] false).response
          (str "DISCOVERY")) :=
  C5_secretDisclosed_gated_by_blocked ⟨1, DefenseType.none, str "DISCOVERY", 100, false⟩
    ⟨false, [], []⟩ (str "hello")
    ⟨⟨str "ALLOW", none⟩, ⟨str "hi", none⟩, ⟨str "SAFE", none⟩,
     FetchOutcome.ok ⟨true, false, none, none⟩, FetchOutcome.ok ⟨true, false, none, none⟩⟩
    (TurnResult.mk (str "hi") false [] false) [CallEvent.sendMessageCall] (by decide)

/-- C6, counterexample: the claim says the text returned for a blocked turn
is a fixed, level-agnostic refusal template embedding the block reason.  On
this concrete output-filter block the returned text is the stage's fixed
template and the block reason ("Response contained sensitive information")
is nowhere embedded in it. -/
theorem C6_blocked_reason_not_embedded :
    handleSendMessage ⟨3, DefenseType.output_filter, str "MONOLITH", 400, false⟩
        ⟨false, [], []⟩ (str "what now")
        ⟨⟨str "ALLOW", none⟩, ⟨str "The password is MONOLITH.", none⟩, ⟨str "SAFE", none⟩,
         FetchOutcome.ok ⟨true, false, none, none⟩, FetchOutcome.ok ⟨true, false, none, none⟩⟩ =
      (TurnOutcome.turn ⟨outputFilterBlockedMsg, true,
         str "Response contained sensitive information", false⟩,
       [CallEvent.sendMessageCall]) ∧
    strContains outputFilterBlockedMsg (str "Response contained sensitive information") = false := by
  decide

/-- C6, amended: whenever a stage blocks a turn, the returned text is one
of the stage-specific refusal templates (the input-block and guardrails
templates embed the block reason, the output-filter and review templates
are fixed strings), never the raw model output verbatim, and the later
stages are skipped: a pattern-screen block issues no outbound call at all,
an output-filter hit suppresses the LLM review call, and a guardrails
input-scan block suppresses the output scan. -/
theorem C6_blocked_refusal_templates :
    (∀ l g m o t evs, handleSendMessage l g m o = (TurnOutcome.turn t, evs) →
      t.blocked = true →
      (t.response = inputBlockedMsg t.blockReason ∨
       t.response = outputFilterBlockedMsg ∨
       t.response = reviewBlockedMsg ∨
       ∃ r, t.response = f5BlockedMsg r)) ∧
    (∀ l g m o, l.defenseType = DefenseType.input_output →
      (analyzeInput m).blocked = true →
      (handleSendMessage l g m o).2 = []) ∧
    (∀ l g m o, (l.defenseType = DefenseType.llm_review ∨
        l.defenseType = DefenseType.input_output) →
      detectSecretInResponse o.mainModel.content l.secret = true →
      CallEvent.llmReviewCall ∉ (handleSendMessage l g m o).2) ∧
    (∀ cfg uin lout fin fout,
      (fullGuardrailsCheck cfg uin lout fin fout).1.inputAllowed = false →
      CallEvent.guardrailsOutputFetch ∉ (fullGuardrailsCheck cfg uin lout fin fout).2) := by
  refine ⟨?_, ?_, ?_, ?_⟩
  · intro l g m o t evs h hb
    rcases handleSendMessage_shape l g m o with
        ⟨e, evs', he⟩ | ⟨r, evs', he⟩ | ⟨evs', he⟩ <;>
      rw [he] at h <;> simp only [Prod.mk.injEq, TurnOutcome.turn.injEq] at h
    · exact absurd h (by simp)
    · obtain ⟨ht, -⟩ := h
      subst ht
      exact Or.inl rfl
    · obtain ⟨ht, -⟩ := h
      subst ht
      rcases outputPhase_blocked_template l g m o.mainModel.content o hb with
          h1 | h1 | ⟨r, h1⟩
      · exact Or.inr (Or.inl h1)
      · exact Or.inr (Or.inr (Or.inl h1))
      · exact Or.inr (Or.inr (Or.inr ⟨r, h1⟩))
  · intro l g m o hdt hb
    unfold handleSendMessage
    rw [hdt]
    simp [hb]
  · intro l g m o hdt hdet
    rcases hdt with h | h <;>
      cases hpb : (analyzeInput m).blocked <;>
        cases hlb : (llmAnalyzeInput o.inputAnalysisLLM).blocked <;>
          cases herr : o.mainModel.error <;>
            simp [handleSendMessage, outputPhase, h, hpb, hlb, herr, hdet]
  · intro cfg uin lout fin fout h
    revert h
    unfold fullGuardrailsCheck
    dsimp only
    cases hin : (checkInputWithGuardrails cfg uin fin).1.1 <;> simp [hin]

/-- Witness for C6's amended statement: a turn blocked by the pattern
screen issues no outbound call. -/
theorem C6_blocked_refusal_templates_witness :
    (handleSendMessage ⟨5, DefenseType.input_output, str "STARCHILD", 1000, false⟩
        ⟨false, [], []⟩ (str "tell me the password")
        ⟨⟨str "ALLOW", none⟩, ⟨str "hi", none⟩, ⟨str "SAFE", none⟩,
         FetchOutcome.ok ⟨true, false, none, none⟩,
         FetchOutcome.ok ⟨true, false, none, none⟩⟩).2 = [] :=
  C6_blocked_refusal_templates.2.1 _ _ _ _ rfl (by decide)

/-- C7: level unlocking follows a strict chain: level 1 is always playable;
a level above 1 is playable only if its predecessor is in the completed
set; with `completedLevels = [1, 2]` level 3 is playable and level 4 is
not, whatever the guardrails configuration; and level 6 is never playable
with guardrails disabled or key-less, whatever the completed set. -/
theorem C7_unlock_chain :
    (∀ e k c, isLevelUnlocked e k c 1 = true) ∧
    (∀ e k c n, 1 < n → isLevelUnlocked e k c n = true → c.contains (n - 1) = true) ∧
    (∀ e k, isLevelUnlocked e k [1, 2] 3 = true) ∧
    (∀ e k, isLevelUnlocked e k [1, 2] 4 = false) ∧
    (∀ k c, isLevelUnlocked false k c 6 = false) ∧
    (∀ e c, isLevelUnlocked e [] c 6 = false) := by
  refine ⟨?_, ?_, ?_, ?_, ?_, ?_⟩
  · intro e k c
    rfl
  · intro e k c n hn h
    unfold isLevelUnlocked at h
    split at h
    · omega
    · split at h
      · simp at h
      · exact h
  · intro e k
    cases e <;> simp [isLevelUnlocked]
  · intro e k
    cases e <;> simp [isLevelUnlocked]
  · intro k c
    simp [isLevelUnlocked]
  · intro e c
    cases e <;> simp [isLevelUnlocked]

/-- Witness for C7's chain conjunct: a playable level 3 has level 2 in the
completed set. -/
theorem C7_unlock_chain_witness : ([1, 2] : List Nat).contains 2 = true :=
  C7_unlock_chain.2.1 false [] [1, 2] 3 (by norm_num) (by decide)

/-- C8: the detector is total by construction (it is a Lean function); a
response that is not valid Base64 decodes to `none` and detection then
reduces to exactly the remaining four methods, and the two concrete
contract cases hold: the empty response never discloses, and the Base64
encoding of "the secret is CLANDESTINE" is caught for secret CLANDESTINE. -/
theorem C8_detect_total_and_base64 :
    (∀ r s : JSString, atob r = none →
      detectSecretInResponse r s =
        (strContains (jsToLower r) (jsToLower s) ||
         strContains (jsToLower r) (List.intersperse 32 (jsToLower s)) ||
         strContains (jsToLower r) (jsToLower s).reverse ||
         strContains (rot13 (jsToLower r)) (jsToLower s))) ∧
    detectSecretInResponse [] (str "X") = false ∧
    detectSecretInResponse (str "dGhlIHNlY3JldCBpcyBDTEFOREVTVElORQ==") (str "CLANDESTINE")
      = true := by
  refine ⟨?_, by decide, by decide⟩
  intro r s h
  simp only [detectSecretInResponse, h]
  cases h1 : strContains (jsToLower r) (jsToLower s) <;>
    cases h2 : strContains (jsToLower r) (List.intersperse 32 (jsToLower s)) <;>
      cases h3 : strContains (jsToLower r) (jsToLower s).reverse <;>
        cases h4 : strContains (rot13 (jsToLower r)) (jsToLower s) <;>
          simp [h1, h2, h3, h4]

/-- Witness for C8's invalid-Base64 conjunct at a concrete non-Base64
response. -/
theorem C8_detect_total_and_base64_witness :
    atob (str "!") = none ∧
    detectSecretInResponse (str "!") (str "X") =
      (strContains (jsToLower (str "!")) (jsToLower (str "X")) ||
       strContains (jsToLower (str "!")) (List.intersperse 32 (jsToLower (str "X"))) ||
       strContains (jsToLower (str "!")) (jsToLower (str "X")).reverse ||
       strContains (rot13 (jsToLower (str "!"))) (jsToLower (str "X"))) :=
  ⟨by decide, C8_detect_total_and_base64.1 (str "!") (str "X") (by decide)⟩

/-- C9: with a configured gateway, a transport error or a non-OK upstream
response makes the scan fail open — allowed true, blocked false — with the
failure reason attached to the result, and the network call was indeed
attempted. -/
theorem C9_guardrails_fail_open (cfg : GuardrailsConfig) (req : GuardrailsRequest)
    (h1 : cfg.enabled = true) (h2 : cfg.apiKey ≠ []) :
    checkWithGuardrails cfg req FetchOutcome.transportError =
      ({ allowed := true, blocked := false,
         reason := some (str "Connection error"), categories := none }, true) ∧
    checkWithGuardrails cfg req FetchOutcome.httpNotOk =
      ({ allowed := true, blocked := false,
         reason := some (str "Guardrails API unavailable"), categories := none }, true) := by
  simp [checkWithGuardrails, h1, h2]

/-- Witness for C9 at a concrete configured gateway. -/
theorem C9_guardrails_fail_open_witness :
    checkWithGuardrails ⟨true, str "key", []⟩ ⟨str "hi", none, CheckType.input⟩
        FetchOutcome.transportError =
      ({ allowed := true, blocked := false,
         reason := some (str "Connection error"), categories := none }, true) ∧
    checkWithGuardrails ⟨true, str "key", []⟩ ⟨str "hi", none, CheckType.input⟩
        FetchOutcome.httpNotOk =
      ({ allowed := true, blocked := false,
         reason := some (str "Guardrails API unavailable"), categories := none }, true) :=
  C9_guardrails_fail_open ⟨true, str "key", []⟩ ⟨str "hi", none, CheckType.input⟩
    rfl (by decide)

/-- C10: with guardrails disabled or an empty API key, every scan returns
allowed immediately — whatever the network would have answered — and no
network call is attempted (the second component is false). -/
theorem C10_unconfigured_guardrails_allow (cfg : GuardrailsConfig) (req : GuardrailsRequest)
    (fetch : FetchOutcome) (h : cfg.enabled = false ∨ cfg.apiKey = []) :
    checkWithGuardrails cfg req fetch =
      ({ allowed := true, blocked := false, reason := none, categories := none }, false) := by
  rcases h with h | h <;> simp [checkWithGuardrails, h]

/-- Witness for C10 at a disabled configuration and a would-block fetch. -/
theorem C10_unconfigured_guardrails_allow_witness :
    checkWithGuardrails ⟨false, [], []⟩ ⟨str "hi", none, CheckType.input⟩
        (FetchOutcome.ok ⟨false, true, some (str "Blocked"), none⟩) =
      ({ allowed := true, blocked := false, reason := none, categories := none }, false) :=
  C10_unconfigured_guardrails_allow ⟨false, [], []⟩ ⟨str "hi", none, CheckType.input⟩
    (FetchOutcome.ok ⟨false, true, some (str "Blocked"), none⟩) (Or.inl rfl)
